import Mathlib

/-!
Verification development for the snapd sources: the attribute-constraint
matcher of the assertion subsystem (`asserts`), the device assertion
assembly steps (`asserts/device_asserts.go`), and the REST handlers of the
daemon (`daemon/api.go`).  Go values of type `interface\x7b\x7d` are embedded as
the inductive `Attr`; fallible Go functions returning `(T, error)` are
embedded as `Except String T`.  External collaborators (the snap store, the
snapstate task-set builders, the crypto key decoder) are passed in as
explicit function parameters.
-/

/-! ### Generic helpers -/

/-- Starts-with test on character lists: the first list is an initial
segment of the second. -/
def startsWithL : List Char → List Char → Bool
  | [], _ => true
  | _ :: _, [] => false
  | a :: as, b :: bs => a = b && startsWithL as bs

/-- Occurrence test on character lists: the first list appears contiguously
somewhere inside the second. -/
def occursIn (pat : List Char) : List Char → Bool
  | [] => startsWithL pat []
  | b :: bs => startsWithL pat (b :: bs) || occursIn pat bs

/-- Substring test: `strContains s pat` holds when `pat` occurs contiguously
inside `s`.  Used to state "the diagnostic names X" claims. -/
def strContains (s pat : String) : Bool :=
  occursIn pat.toList s.toList

/-- Whether an `Except String Unit` computation succeeded. -/
def isOkE {α : Type} : Except String α → Bool
  | .ok _ => true
  | .error _ => false

/-- Whether an `Except` computation failed. -/
def isErrE {α : Type} : Except String α → Bool
  | .ok _ => false
  | .error _ => true

/-! ### Regular expressions

Model of the part of Go's `regexp` package used by the sources.  Matching is
by Brzozowski derivatives; `rmatch r s` decides whether `r` matches the
*whole* of `s`.  Because `|` has the lowest precedence in Go, the anchored
pattern `"^" ++ s ++ "$"` built by `compileRegexpAttrMatcher` anchors only
the first and last top-level branch of `s`: `^high|full$` accepts
`highway`.  `Regex.parseBranches` therefore keeps the top-level branches
apart, and `goAnchoredMatch` gives them the prefix/substring/suffix search
semantics of `MatchString` on the anchored pattern (whole-string match when
there is a single branch).  The surface syntax accepted is the RE2 subset
with literals, `.`, alternation `|`, grouping, `*`, `+`, `?` and
backslash-escaped punctuation; `^` and `$` inside `s` itself are outside
the modelled subset and fail compilation. -/

inductive Regex where
  | emp
  | eps
  | chr (c : Char)
  | anyc
  | cat (r1 r2 : Regex)
  | alt (r1 r2 : Regex)
  | star (r : Regex)
deriving Repr

/-- Nullability: whether the regex matches the empty string. -/
def Regex.nullable : Regex → Bool
  | .emp => false
  | .eps => true
  | .chr _ => false
  | .anyc => false
  | .cat r1 r2 => r1.nullable && r2.nullable
  | .alt r1 r2 => r1.nullable || r2.nullable
  | .star _ => true

/-- Brzozowski derivative of a regex with respect to one character. -/
def Regex.deriv : Regex → Char → Regex
  | .emp, _ => .emp
  | .eps, _ => .emp
  | .chr c, d => if c = d then .eps else .emp
  | .anyc, _ => .eps
  | .cat r1 r2, d =>
    if r1.nullable then .alt (.cat (r1.deriv d) r2) (r2.deriv d)
    else .cat (r1.deriv d) r2
  | .alt r1 r2, d => .alt (r1.deriv d) (r2.deriv d)
  | .star r, d => .cat (r.deriv d) (.star r)

/-- Full (anchored) match of a regex against a string. -/
def rmatch (r : Regex) (s : String) : Bool :=
  (s.toList.foldl Regex.deriv r).nullable

/-- Characters that are regexp metacharacters and hence not plain literals. -/
def rxMeta : List Char :=
  ['|', '*', '+', '?', '(', ')', '[', ']', '\x7b', '\x7d', '^', '$', '\\', '.']

/-- Postfix repetition operators `*`, `+`, `?` applied greedily after an atom. -/
def rxPostfixOps (r : Regex) : List Char → Regex × List Char
  | '*' :: cs => rxPostfixOps (.star r) cs
  | '+' :: cs => rxPostfixOps (.cat r (.star r)) cs
  | '?' :: cs => rxPostfixOps (.alt r .eps) cs
  | cs => (r, cs)

mutual

/-- Alternation level of the regexp grammar: `concat ('|' concat)*`. -/
def rxAlt (fuel : Nat) (cs : List Char) : Option (Regex × List Char) :=
  match fuel with
  | 0 => none
  | fuel + 1 =>
    match rxCat fuel cs with
    | none => none
    | some (r, rest) =>
      match rest with
      | '|' :: rest2 =>
        match rxAlt fuel rest2 with
        | none => none
        | some (r2, rest3) => some (.alt r r2, rest3)
      | _ => some (r, rest)

/-- Concatenation level of the regexp grammar. -/
def rxCat (fuel : Nat) (cs : List Char) : Option (Regex × List Char) :=
  match fuel with
  | 0 => none
  | fuel + 1 =>
    match cs with
    | [] => some (.eps, [])
    | ')' :: _ => some (.eps, cs)
    | '|' :: _ => some (.eps, cs)
    | _ =>
      match rxAtom fuel cs with
      | none => none
      | some (r, rest) =>
        let (r2, rest2) := rxPostfixOps r rest
        match rxCat fuel rest2 with
        | none => none
        | some (r3, rest3) => some (.cat r2 r3, rest3)

/-- One atom of the regexp grammar: a group, `.`, an escape or a literal. -/
def rxAtom (fuel : Nat) (cs : List Char) : Option (Regex × List Char) :=
  match fuel with
  | 0 => none
  | fuel + 1 =>
    match cs with
    | '(' :: rest =>
      match rxAlt fuel rest with
      | some (r, ')' :: rest2) => some (r, rest2)
      | _ => none
    | '.' :: rest => some (.anyc, rest)
    | '\\' :: c :: rest => if c.isAlphanum then none else some (.chr c, rest)
    | c :: rest => if c ∈ rxMeta then none else some (.chr c, rest)
    | [] => none

end

/-- Parse a regexp pattern string; `none` models a `regexp.Compile` error
(including constructs outside the modelled subset). -/
def Regex.parse (s : String) : Option Regex :=
  match rxAlt (8 * (s.length + 1)) s.toList with
  | some (r, []) => some r
  | _ => none

/-- Splits a pattern at its top-level `|` into the list of alternation
branches (at least one).  In Go `|` has the lowest precedence, so the
branch structure decides what the surrounding `^…$` anchors of
`compileRegexpAttrMatcher` actually bind to. -/
def rxBranches (fuel : Nat) (cs : List Char) : Option (List Regex × List Char) :=
  match fuel with
  | 0 => none
  | fuel + 1 =>
    match rxCat fuel cs with
    | none => none
    | some (r, rest) =>
      match rest with
      | '|' :: rest2 =>
        match rxBranches fuel rest2 with
        | none => none
        | some (rs, rest3) => some (r :: rs, rest3)
      | _ => some ([r], rest)

/-- Parse a pattern into its top-level alternation branches; `none` models a
`regexp.Compile` error (including constructs outside the modelled subset). -/
def Regex.parseBranches (s : String) : Option (List Regex) :=
  match rxBranches (8 * (s.length + 1)) s.toList with
  | some (rs, []) => some rs
  | _ => none

/-- Prefix match: the pattern `^r` found by an unanchored search — `r`
matches some initial segment of the string. -/
def matchPre (r : Regex) (t : String) : Bool :=
  rmatch (.cat r (.star .anyc)) t

/-- Suffix match: the pattern `r$` found by an unanchored search — `r`
matches some final segment of the string. -/
def matchSuf (r : Regex) (t : String) : Bool :=
  rmatch (.cat (.star .anyc) r) t

/-- Substring match: the bare pattern `r` found by an unanchored search. -/
def matchSub (r : Regex) (t : String) : Bool :=
  rmatch (.cat (.star .anyc) (.cat r (.star .anyc))) t

/-- Match of the non-first branches of `^b1|…|bn$` under Go's precedence:
the middle branches carry no anchor at all (substring search) and the last
branch carries only the `$` (suffix search). -/
def matchMid : List Regex → String → Bool
  | [], _ => false
  | [r], t => matchSuf r t
  | r :: rest, t => matchSub r t || matchMid rest t

/-- Go semantics of `regexp.Compile("^" ++ s ++ "$").MatchString(t)` for a
pattern `s` split into its top-level alternation branches: with a single
branch the pattern is fully anchored (whole-string match); with several
branches `|` binds loosest, so `^` anchors only the first branch and `$`
only the last — the first branch is prefix-searched, middle branches are
substring-searched, the last is suffix-searched. -/
def goAnchoredMatch : List Regex → String → Bool
  | [], _ => false
  | [r], t => rmatch r t
  | r :: rest, t => matchPre r t || matchMid rest t

/-! ### Attribute values and constraints

`Attr` embeds the Go `interface\x7b\x7d` trees handled by the attribute-constraint
code of the asserts package: strings, booleans, ints, lists and string-keyed
maps (the two Go map shapes `map[string]interface\x7b\x7d` and
`map[interface\x7b\x7d]interface\x7b\x7d` are merged into one constructor).  The same type
serves for constraint trees and for checked values, as in the source. -/

inductive Attr where
  | str (s : String)
  | boolv (b : Bool)
  | intv (n : Int)
  | list (l : List Attr)
  | map (kvs : List (String × Attr))
deriving Repr

/-- Association-list lookup, modelling Go's `x[k]`: a missing key reads back
as `nil`, here `none`. -/
def lookupA (kvs : List (String × Attr)) (k : String) : Option Attr :=
  match kvs with
  | [] => none
  | (k2, v) :: rest => if k2 = k then some v else lookupA rest k

/-- Compiled attribute matchers, one constructor per Go matcher type:
`regexpAttrMatcher` (keeping the source pattern for diagnostics and the
parsed top-level branches of the pattern), `mapAttrMatcher` and
`altAttrMatcher`. -/
inductive attrMatcher where
  | regexp (pat : String) (rs : List Regex)
  | map (entries : List (String × attrMatcher))
  | alt (alts : List attrMatcher)
deriving Repr

/-- Dotted-path chaining of diagnostic contexts (`chain` in the source). -/
def chain (context k : String) : String :=
  if context = "" then k else context ++ "." ++ k

/-- Compilation context: the dotted path so far, whether a key-value map was
traversed, and whether the parent node was an alternatives list. -/
structure compileContext where
  dotted : String
  hadMap : Bool
  wasAlt : Bool
deriving Repr

/-- Context for the constraint under key `k` of a map node. -/
def compileContext.keyEntry (cc : compileContext) (k : String) : compileContext :=
  { dotted := chain cc.dotted k, hadMap := true, wasAlt := false }

/-- Context for the `i`-th branch of an alternatives node (1-based in the
dotted path, as in the source). -/
def compileContext.altI (cc : compileContext) (i : Nat) : compileContext :=
  { dotted := cc.dotted ++ "/alt#" ++ toString (i + 1) ++ "/"
    hadMap := cc.hadMap
    wasAlt := true }

/-- Rendering of a constraint value in the default compile error
(`%v` of an int or bool). -/
def goFormatV : Attr → String
  | .intv n => toString n
  | .boolv b => if b then "true" else "false"
  | .str s => s
  | _ => "?"

/-- Compiles one regexp leaf (`compileRegexpAttrMatcher`): the source
compiles `"^" ++ s ++ "$"`, whose meaning under Go's lowest-precedence `|`
is captured by the top-level branch split together with
`goAnchoredMatch`. -/
def compileRegexpAttrMatcher (cc : compileContext) (s : String) :
    Except String attrMatcher :=
  match Regex.parseBranches s with
  | none =>
    .error ("cannot compile \"" ++ cc.dotted ++ "\" constraint \"" ++ s
      ++ "\": invalid pattern")
  | some rs => .ok (.regexp s rs)

mutual

/-- Compiles an attribute matcher from a constraint tree
(`compileAttrMatcher` in the source): maps, alternatives lists (rejected
when directly nested), regexp-string leaves (rejected at the first level of
non-alternative constraints), everything else is an error. -/
def compileAttrMatcher : compileContext → Attr → Except String attrMatcher
  | cc, .map m =>
    match compileMapAttrMatcher cc m with
    | .error e => .error e
    | .ok entries => .ok (.map entries)
  | cc, .list l =>
    if cc.wasAlt then
      .error ("cannot nest alternative constraints directly at \""
        ++ cc.dotted ++ "\"")
    else
      match compileAltAttrMatcher cc 0 l with
      | .error e => .error e
      | .ok alts => .ok (.alt alts)
  | cc, .str s =>
    if !cc.hadMap then
      .error "first level of non alternative constraints must be a set of key-value contraints"
    else compileRegexpAttrMatcher cc s
  | cc, v =>
    .error ("constraint \"" ++ cc.dotted
      ++ "\" must be a key-value map, regexp or a list of alternative constraints: "
      ++ goFormatV v)

/-- Compiles each entry of a map constraint (`compileMapAttrMatcher`). -/
def compileMapAttrMatcher (cc : compileContext) :
    List (String × Attr) → Except String (List (String × attrMatcher))
  | [] => .ok []
  | (k, constraint) :: rest =>
    match compileAttrMatcher (cc.keyEntry k) constraint with
    | .error e => .error e
    | .ok m1 =>
      match compileMapAttrMatcher cc rest with
      | .error e => .error e
      | .ok ms => .ok ((k, m1) :: ms)

/-- Compiles each branch of an alternatives constraint
(`compileAltAttrMatcher`), threading the branch index for diagnostics. -/
def compileAltAttrMatcher (cc : compileContext) (i : Nat) :
    List Attr → Except String (List attrMatcher)
  | [] => .ok []
  | constraint :: rest =>
    match compileAttrMatcher (cc.altI i) constraint with
    | .error e => .error e
    | .ok m1 =>
      match compileAltAttrMatcher cc (i + 1) rest with
      | .error e => .error e
      | .ok ms => .ok (m1 :: ms)

end

/-- Final verdict of a regexp leaf on a rendered string, with the source's
diagnostic (`attribute %q value %q does not match %v`). -/
def rxVerdict (pat : String) (rs : List Regex) (ctx s : String) : Except String Unit :=
  if goAnchoredMatch rs s then .ok ()
  else
    .error ("attribute \"" ++ ctx ++ "\" value \"" ++ s ++ "\" does not match ^"
      ++ pat ++ "$")

/-- Scalar step of a regexp leaf matcher: renders the value as a string
(strings verbatim, booleans as `true`/`false`, ints in decimal) and requires
the anchored pattern to match; any other value kind is an error. -/
def rxScalar (pat : String) (rs : List Regex) (ctx : String) : Attr → Except String Unit
  | .str x => rxVerdict pat rs ctx x
  | .boolv b => rxVerdict pat rs ctx (if b then "true" else "false")
  | .intv n => rxVerdict pat rs ctx (toString n)
  | _ => .error ("attribute \"" ++ ctx ++ "\" must be a scalar or list")

mutual

/-- Element-wise application of a scalar/map step through arbitrarily nested
list values (`matchList` in the source, which both `regexpAttrMatcher.match`
and `mapAttrMatcher.match` delegate to). -/
def listLift (base : String → Attr → Except String Unit) :
    String → Attr → Except String Unit
  | ctx, .list l => listLiftL base ctx 0 l
  | ctx, v => base ctx v

/-- List iteration of `listLift`, chaining the element index into the dotted
diagnostic path. -/
def listLiftL (base : String → Attr → Except String Unit) :
    String → Nat → List Attr → Except String Unit
  | _, _, [] => .ok ()
  | ctx, i, v :: rest =>
    match listLift base (chain ctx (toString i)) v with
    | .error e => .error e
    | .ok _ => listLiftL base ctx (i + 1) rest

end

mutual

/-- Matches a value against a compiled matcher: the `match` methods of
`regexpAttrMatcher`, `mapAttrMatcher` and `altAttrMatcher` in the source. -/
def amatch : attrMatcher → String → Attr → Except String Unit
  | .regexp pat rs, ctx, v => listLift (rxScalar pat rs) ctx v
  | .map entries, ctx, v =>
    listLift (fun c w =>
      match w with
      | .map kvs => matchEntries entries c kvs
      | _ => .error ("attribute \"" ++ c ++ "\" must be a map")) ctx v
  | .alt alts, ctx, v =>
    match matchAlts alts ctx v with
    | none => .ok ()
    | some firstErr =>
      .error ("no alternative"
        ++ (if ctx ≠ "" then " for attribute \"" ++ ctx ++ "\"" else "")
        ++ " matches: " ++ firstErr)

/-- Iterates the entries of a map matcher over a map value (`matchEntry` in
the source: a missing key is `nil` and yields the "unset" diagnostic). -/
def matchEntries : List (String × attrMatcher) → String → List (String × Attr) →
    Except String Unit
  | [], _, _ => .ok ()
  | (k, m1) :: rest, ctx, kvs =>
    match lookupA kvs k with
    | none => .error ("attribute \"" ++ chain ctx k ++ "\" has constraints but is unset")
    | some v =>
      match amatch m1 (chain ctx k) v with
      | .error e => .error e
      | .ok _ => matchEntries rest ctx kvs

/-- Tries the branches of an alternatives matcher in order; `none` means some
branch matched, `some e` carries the first branch's error (`"<nil>"` when
there are no branches, as `fmt` renders a nil error). -/
def matchAlts : List attrMatcher → String → Attr → Option String
  | [], _, _ => some "<nil>"
  | a :: rest, ctx, v =>
    match amatch a ctx v with
    | .ok _ => none
    | .error e =>
      match matchAlts rest ctx v with
      | none => none
      | some _ => some e

end

/-- A compiled set of attribute constraints (`AttributeConstraints`). -/
structure AttributeConstraints where
  matcher : attrMatcher

/-- Checks and compiles a constraint tree (`compileAttributeConstraints`),
starting from the empty compilation context. -/
def compileAttributeConstraints (constraints : Attr) :
    Except String AttributeConstraints :=
  match compileAttrMatcher { dotted := "", hadMap := false, wasAlt := false } constraints with
  | .error e => .error e
  | .ok m => .ok { matcher := m }

/-- Checks whether attributes match the constraints
(`AttributeConstraints.Check`): the compiled matcher runs on the attribute
map with the empty context. -/
def AttributeConstraints.Check (c : AttributeConstraints)
    (attrs : List (String × Attr)) : Except String Unit :=
  amatch c.matcher "" (.map attrs)

/-! ### Spec-side definitions for the regexp-leaf claim

These two definitions follow the words of the spec sentence "anchors `^…$`,
matches strings, booleans (`true`/`false`), integers; applied element-wise to
a list", to be compared with the source-derived `amatch`. -/

mutual

/-- Acceptance of a value by the compiled pattern `^s$` (given by its
top-level branches), as the claim words it: a string is taken verbatim, a
boolean renders as `true`/`false`, an integer in decimal, a list is accepted
when every element is, anything else never. -/
def specRegexpAccepts (rs : List Regex) : Attr → Bool
  | .str x => goAnchoredMatch rs x
  | .boolv b => goAnchoredMatch rs (if b then "true" else "false")
  | .intv n => goAnchoredMatch rs (toString n)
  | .list l => specRegexpAcceptsL rs l
  | .map _ => false

/-- List form of `specRegexpAccepts`: every element accepted. -/
def specRegexpAcceptsL (rs : List Regex) : List Attr → Bool
  | [] => true
  | v :: rest => specRegexpAccepts rs v && specRegexpAcceptsL rs rest

end

/-! ### Device assertions (`asserts/device_asserts.go`)

An assertion base carries the parsed header map and the signing key id.
The public key decoder (`DecodePublicKey`, crypto code outside the given
sources) and the timestamp parser (`checkRFC3339Date`) are passed in as
function parameters. -/

/-- A decoded device public key; `keyID` models `PublicKey.ID()`, the
key's self-computed SHA3-384 fingerprint. -/
structure PublicKey where
  keyID : String
deriving Repr

/-- The generic part of a parsed assertion: headers and signing key id. -/
structure AssertionBase where
  headers : List (String × Attr)
  signKeyID : String
deriving Repr

/-- Modelled from the spec: `HeaderString` of the asserts package (not under
`src/`) reads a header as a string, with the empty string for an absent or
non-string header. -/
def AssertionBase.headerString (a : AssertionBase) (k : String) : String :=
  match lookupA a.headers k with
  | some (.str s) => s
  | _ => ""

/-- Modelled from the spec: `checkNotEmptyString` of the asserts package
(not under `src/`) reads a mandatory non-empty string header. -/
def checkNotEmptyString (headers : List (String × Attr)) (k : String) :
    Except String String :=
  match lookupA headers k with
  | none => .error ("\"" ++ k ++ "\" header is mandatory")
  | some (.str s) =>
    if s = "" then .error ("\"" ++ k ++ "\" header should not be empty")
    else .ok s
  | some _ => .error ("\"" ++ k ++ "\" header must be a string")

/-- Modelled from the spec: `checkOptionalString` of the asserts package
(not under `src/`) reads an optional string header. -/
def checkOptionalString (headers : List (String × Attr)) (k : String) :
    Except String String :=
  match lookupA headers k with
  | none => .ok ""
  | some (.str s) => .ok s
  | some _ => .error ("\"" ++ k ++ "\" header must be a string")

/-- Authority binding (`checkAuthorityMatchesBrand`): for brand-subject
assertion types, `authority-id` must equal `brand-id`. -/
def checkAuthorityMatchesBrand (typeName : String) (a : AssertionBase) :
    Except String Unit :=
  if a.headerString "brand-id" ≠ a.headerString "authority-id" then
    .error ("authority-id and brand-id must match, " ++ typeName
      ++ " assertions are expected to be signed by the brand: \""
      ++ a.headerString "authority-id" ++ "\" != \"" ++ a.headerString "brand-id" ++ "\"")
  else .ok ()

/-- A fully assembled serial assertion (`Serial`). -/
structure SerialA where
  base : AssertionBase
  timestamp : Int
  pubKey : PublicKey

/-- A fully assembled serial-request assertion (`SerialRequest`). -/
structure SerialRequestA where
  base : AssertionBase
  pubKey : PublicKey

/-- Assembles a serial assertion (`assembleSerial`): authority binding, a
decodable `device-key` header, and the `device-key-sha3-384` header must
equal the decoded key's self-computed fingerprint; the timestamp is parsed
last.  `decodePublicKey` and `checkTimestamp` stand for the external
decoder and the RFC3339 parser. -/
def assembleSerial (decodePublicKey : String → Except String PublicKey)
    (checkTimestamp : List (String × Attr) → Except String Int)
    (assert : AssertionBase) : Except String SerialA :=
  match checkAuthorityMatchesBrand "serial" assert with
  | .error e => .error e
  | .ok _ =>
    match checkNotEmptyString assert.headers "device-key" with
    | .error e => .error e
    | .ok encodedKey =>
      match decodePublicKey encodedKey with
      | .error e => .error e
      | .ok pubKey =>
        match checkNotEmptyString assert.headers "device-key-sha3-384" with
        | .error e => .error e
        | .ok keyID =>
          if keyID ≠ pubKey.keyID then
            .error "device key does not match provided key id"
          else
            match checkTimestamp assert.headers with
            | .error e => .error e
            | .ok timestamp => .ok { base := assert, timestamp := timestamp, pubKey := pubKey }

/-- Assembles a serial-request assertion (`assembleSerialRequest`):
mandatory `brand-id`, `model`, `request-id` and `device-key` headers, an
optional `serial`, and the decoded device key's fingerprint must equal the
assertion's signing key id. -/
def assembleSerialRequest (decodePublicKey : String → Except String PublicKey)
    (assert : AssertionBase) : Except String SerialRequestA :=
  match checkNotEmptyString assert.headers "brand-id" with
  | .error e => .error e
  | .ok _ =>
    match checkNotEmptyString assert.headers "model" with
    | .error e => .error e
    | .ok _ =>
      match checkNotEmptyString assert.headers "request-id" with
      | .error e => .error e
      | .ok _ =>
        match checkOptionalString assert.headers "serial" with
        | .error e => .error e
        | .ok _ =>
          match checkNotEmptyString assert.headers "device-key" with
          | .error e => .error e
          | .ok encodedKey =>
            match decodePublicKey encodedKey with
            | .error e => .error e
            | .ok pubKey =>
              if pubKey.keyID ≠ assert.signKeyID then
                .error "device key does not match included signing key id"
              else .ok { base := assert, pubKey := pubKey }

/-! ### Daemon: responses and state (`daemon/api.go`)

The handlers are embedded as pure functions from the decoded request plus
the daemon state to a `Response` and a new state.  External collaborators
(snapstate task-set builders, the store, `ifacestate`) are function
parameters; a handler that returns an error before consulting them does so
for every instantiation of those parameters. -/

/-- Task/Change statuses of the state package.  Modelled from the spec:
`status ∈ \x7bDo, Doing, Done, Error, Hold, Abort, Undo, Undoing, Undone\x7d`,
with the terminal ("ready") ones being Done, Undone, Error and Hold. -/
inductive Status where
  | doSt
  | doing
  | done
  | undo
  | undoing
  | undone
  | hold
  | err
  | abort
deriving Repr, DecidableEq

/-- Modelled from the spec: a status is terminal ("ready") iff it is Done,
Undone, Error or Hold. -/
def Status.ready : Status → Bool
  | .done => true
  | .undone => true
  | .err => true
  | .hold => true
  | _ => false

/-- A task-set, reduced to the statuses of its member tasks (all the claims
need of it). -/
def TaskSet : Type := List Status

/-- A Change record of the state package, reduced to what the handlers
observe: identity, kind, summary, the statuses of its tasks, the
`snap-names` and `api-data` entries, and an explicit status override
(`SetStatus`). -/
structure StChange where
  id : String
  kind : String
  summary : String
  tasks : List Status
  snapNames : Option (List String) := none
  apiData : Option (List String) := none
  overrideStatus : Option Status := none
deriving Repr

/-- Modelled from the spec: `Change.Status().Ready()` — an explicitly set
status is taken as is; otherwise the status is derived, and it is ready iff
every task is in a terminal status. -/
def StChange.statusReady (c : StChange) : Bool :=
  match c.overrideStatus with
  | some s => s.ready
  | none => c.tasks.all Status.ready

/-- Modelled from the spec: `Change.Abort()` marks every non-terminal task
`Abort`. -/
def StChange.abortChg (c : StChange) : StChange :=
  { c with tasks := c.tasks.map (fun t => if t.ready then t else .abort) }

/-- The daemon state visible to the embedded handlers: the list of Changes
and the id counter (`last-id`). -/
structure DState where
  changes : List StChange := []
  lastID : Nat := 0
deriving Repr

/-- Modelled from the spec: `State.NewChange` allocates the next monotonic
id and stores a fresh Change. -/
def DState.newChange (st : DState) (kind summary : String) (tasks : List Status)
    (snapNames : Option (List String)) (apiData : Option (List String))
    (overrideStatus : Option Status) : StChange × DState :=
  let chg : StChange :=
    { id := toString (st.lastID + 1), kind := kind, summary := summary,
      tasks := tasks, snapNames := snapNames, apiData := apiData,
      overrideStatus := overrideStatus }
  (chg, { changes := st.changes ++ [chg], lastID := st.lastID + 1 })

/-- Modelled from the spec: `State.Change(id)` looks a Change up by id. -/
def DState.findChange (st : DState) (cid : String) : Option StChange :=
  st.changes.find? (fun c => c.id == cid)

/-- Replaces a Change (by id) after a mutation such as `Abort`. -/
def DState.updateChange (st : DState) (c : StChange) : DState :=
  { st with changes := st.changes.map (fun c2 => if c2.id == c.id then c else c2) }

/-- Response payloads used by the embedded handlers. -/
inductive ApiPayload where
  | confValues (kvs : List (String × Attr))
  | chgInfo (c : StChange)
  | loginData (macaroon : String) (discharges : List String)
deriving Repr

/-- The response envelope: a sync payload, an async change handle, or an
error with its HTTP status, error kind (`""` when none) and message. -/
inductive Response where
  | sync (status : Nat) (payload : ApiPayload)
  | async (status : Nat) (changeID : String)
  | error (status : Nat) (kind : String) (message : String)
deriving Repr

/-- HTTP status code of a response. -/
def Response.statusCode : Response → Nat
  | .sync s _ => s
  | .async s _ => s
  | .error s _ _ => s

/-- Modelled from the spec: the daemon's `BadRequest` helper (in daemon
sources not under `src/`) builds a kind-less error response with HTTP 400. -/
def BadRequest (msg : String) : Response := .error 400 "" msg

/-- Modelled from the spec: `NotImplemented` builds an error response with
HTTP 501. -/
def NotImplemented (msg : String) : Response := .error 501 "" msg

/-- Modelled from the spec: `NotFound` builds an error response with
HTTP 404. -/
def NotFound (msg : String) : Response := .error 404 "" msg

/-- Modelled from the spec: `InternalError` builds an error response with
HTTP 500. -/
def InternalError (msg : String) : Response := .error 500 "" msg

/-- Modelled from the spec: `Unauthorized` builds an error response with
HTTP 401. -/
def Unauthorized (msg : String) : Response := .error 401 "" msg

/-- Modelled from the spec: `AsyncResponse(nil, &Meta\x7bChange: id\x7d)` is a 202
response carrying the change id. -/
def AsyncResponse (changeID : String) : Response := .async 202 changeID

/-! ### Daemon: single-snap and multi-snap operations -/

/-- Snapstate flags relevant here (`snapstate.DevMode`/`JailMode` bits). -/
structure Flags where
  devMode : Bool := false
  jailMode : Bool := false
deriving Repr, DecidableEq

/-- Mode-flag computation (`modeFlags`): `devModeOS` stands for
`release.ReleaseInfo.ForceDevMode()`.  With jailmode requested, a
force-devmode platform is refused first, then the devmode conflict; devmode
(or a force-devmode platform) turns the DevMode flag on. -/
def modeFlags (devModeOS devMode jailMode : Bool) : Except String Flags :=
  if jailMode then
    if devModeOS then .error "this system cannot honour the jailmode flag"
    else if devMode then .error "cannot use devmode and jailmode flags together"
    else .ok { devMode := devMode || devModeOS, jailMode := true }
  else .ok { devMode := devMode || devModeOS, jailMode := false }

/-- The decoded body of a snap operation request (`snapInstruction`).  The
revision is an integer with 0 meaning unset (`snap.Revision.Unset()`). -/
structure SnapInstruction where
  action : String := ""
  channel : String := ""
  revision : Int := 0
  devMode : Bool := false
  jailMode : Bool := false
  snaps : List String := []
deriving Repr

/-- The external snapstate/assertstate collaborators consulted by the snap
operation handlers, as abstract fallible functions. -/
structure SnapOps where
  install : String → String → Int → Flags → Except String (List TaskSet)
  refreshDecls : Unit → Except String Unit
  update : String → String → Int → Flags → Except String TaskSet
  remove : String → Int → Except String TaskSet
  revert : String → Flags → Except String TaskSet
  revertToRevision : String → Int → Flags → Except String TaskSet
  enable : String → Except String TaskSet
  disable : String → Except String TaskSet
  installMany : List String → Except String (List String × List TaskSet)
  updateMany : List String → Except String (List String × List TaskSet)
  removeMany : List String → Except String (List String × List TaskSet)

/-- Go `strconv.Quote` for the plain snap names appearing here. -/
def goQuote (s : String) : String := "\"" ++ s ++ "\""

/-- Go `strings.Join(xs, ", ")`. -/
def goJoinComma : List String → String
  | [] => ""
  | [x] => x
  | x :: rest => x ++ ", " ++ goJoinComma rest

/-- Single-snap install (`snapInstall`): mode flags first, then the
store-backed task-set builder (`withEnsureUbuntuCore` + `snapstate.Install`,
abstracted into `ops.install`), then the summary message. -/
def snapInstall (devModeOS : Bool) (ops : SnapOps) (inst : SnapInstruction) :
    Except String (String × List TaskSet) :=
  match modeFlags devModeOS inst.devMode inst.jailMode with
  | .error e => .error e
  | .ok flags =>
    let name := inst.snaps.headD ""
    match ops.install name inst.channel inst.revision flags with
    | .error e => .error e
    | .ok tsets =>
      let msg :=
        if inst.channel ≠ "stable" && inst.channel ≠ "" then
          "Install \"" ++ name ++ "\" snap from \"" ++ inst.channel ++ "\" channel"
        else "Install \"" ++ name ++ "\" snap"
      .ok (msg, tsets)

/-- Single-snap refresh (`snapUpdate`): mode flags first, then the
snap-declaration refresh and the update task-set builder. -/
def snapUpdate (devModeOS : Bool) (ops : SnapOps) (inst : SnapInstruction) :
    Except String (String × List TaskSet) :=
  match modeFlags devModeOS inst.devMode inst.jailMode with
  | .error e => .error e
  | .ok flags =>
    match ops.refreshDecls () with
    | .error e => .error e
    | .ok _ =>
      let name := inst.snaps.headD ""
      match ops.update name inst.channel inst.revision flags with
      | .error e => .error e
      | .ok ts =>
        let msg :=
          if inst.channel ≠ "stable" && inst.channel ≠ "" then
            "Refresh \"" ++ name ++ "\" snap from \"" ++ inst.channel ++ "\" channel"
          else "Refresh \"" ++ name ++ "\" snap"
        .ok (msg, [ts])

/-- Single-snap remove (`snapRemove`): no mode-flag handling. -/
def snapRemove (_devModeOS : Bool) (ops : SnapOps) (inst : SnapInstruction) :
    Except String (String × List TaskSet) :=
  let name := inst.snaps.headD ""
  match ops.remove name inst.revision with
  | .error e => .error e
  | .ok ts => .ok ("Remove \"" ++ name ++ "\" snap", [ts])

/-- Single-snap revert (`snapRevert`): mode flags first, then revert (to a
revision when one is set). -/
def snapRevert (devModeOS : Bool) (ops : SnapOps) (inst : SnapInstruction) :
    Except String (String × List TaskSet) :=
  match modeFlags devModeOS inst.devMode inst.jailMode with
  | .error e => .error e
  | .ok flags =>
    let name := inst.snaps.headD ""
    match (if inst.revision = 0 then ops.revert name flags
           else ops.revertToRevision name inst.revision flags) with
    | .error e => .error e
    | .ok ts => .ok ("Revert \"" ++ name ++ "\" snap", [ts])

/-- Single-snap enable (`snapEnable`): refuses a set revision. -/
def snapEnable (_devModeOS : Bool) (ops : SnapOps) (inst : SnapInstruction) :
    Except String (String × List TaskSet) :=
  if inst.revision ≠ 0 then .error "enable takes no revision"
  else
    let name := inst.snaps.headD ""
    match ops.enable name with
    | .error e => .error e
    | .ok ts => .ok ("Enable \"" ++ name ++ "\" snap", [ts])

/-- Single-snap disable (`snapDisable`): refuses a set revision. -/
def snapDisable (_devModeOS : Bool) (ops : SnapOps) (inst : SnapInstruction) :
    Except String (String × List TaskSet) :=
  if inst.revision ≠ 0 then .error "disable takes no revision"
  else
    let name := inst.snaps.headD ""
    match ops.disable name with
    | .error e => .error e
    | .ok ts => .ok ("Disable \"" ++ name ++ "\" snap", [ts])

/-- The single-snap dispatch table (`snapInstructionDispTable`). -/
def snapInstructionDispTable (action : String) :
    Option (Bool → SnapOps → SnapInstruction → Except String (String × List TaskSet)) :=
  match action with
  | "install" => some snapInstall
  | "refresh" => some snapUpdate
  | "remove" => some snapRemove
  | "revert" => some snapRevert
  | "enable" => some snapEnable
  | "disable" => some snapDisable
  | _ => none

/-- The `newChange` helper of `api.go`: a fresh Change with all the tasks of
the task-sets and the `snap-names` entry. -/
def newChangeApi (st : DState) (kind summary : String) (tsets : List TaskSet)
    (snapNames : Option (List String)) : StChange × DState :=
  st.newChange kind summary tsets.flatten snapNames none none

/-- The POST `/v2/snaps/\x7bname\x7d` handler (`postSnap`) on a decoded body:
dispatch by action, build the task-sets, wrap them in a Change, answer
async; an action error is a 400 naming the action and the snap. -/
def postSnap (devModeOS : Bool) (ops : SnapOps) (name : String)
    (inst0 : SnapInstruction) (st : DState) : Response × DState :=
  let inst := { inst0 with snaps := [name] }
  match snapInstructionDispTable inst.action with
  | none => (BadRequest ("unknown action " ++ inst.action), st)
  | some impl =>
    match impl devModeOS ops inst with
    | .error e =>
      (BadRequest ("cannot " ++ inst.action ++ " \"" ++ name ++ "\": " ++ e), st)
    | .ok (msg, tsets) =>
      let (chg, st2) := newChangeApi st (inst.action ++ "-snap") msg tsets (some inst.snaps)
      (AsyncResponse chg.id, st2)

/-- Multi-snap refresh (`snapUpdateMany`). -/
def snapUpdateMany (ops : SnapOps) (inst : SnapInstruction) :
    Except String (String × List String × List TaskSet) :=
  match ops.refreshDecls () with
  | .error e => .error e
  | .ok _ =>
    match ops.updateMany inst.snaps with
    | .error e => .error e
    | .ok (updated, tsets) =>
      let msg :=
        match inst.snaps with
        | [] => "Refresh all snaps in the system"
        | [x] => "Refresh snap " ++ goQuote x
        | xs => "Refresh snaps " ++ goJoinComma (xs.map goQuote)
      .ok (msg, updated, tsets)

/-- Multi-snap install (`snapInstallMany`): zero snaps is an error. -/
def snapInstallMany (ops : SnapOps) (inst : SnapInstruction) :
    Except String (String × List String × List TaskSet) :=
  match ops.installMany inst.snaps with
  | .error e => .error e
  | .ok (installed, tsets) =>
    match inst.snaps with
    | [] => .error "cannot install zero snaps"
    | [x] => .ok ("Install snap " ++ goQuote x, installed, tsets)
    | xs => .ok ("Install snaps " ++ goJoinComma (xs.map goQuote), installed, tsets)

/-- Multi-snap remove (`snapRemoveMany`): zero snaps is an error. -/
def snapRemoveMany (ops : SnapOps) (inst : SnapInstruction) :
    Except String (String × List String × List TaskSet) :=
  match ops.removeMany inst.snaps with
  | .error e => .error e
  | .ok (removed, tsets) =>
    match inst.snaps with
    | [] => .error "cannot remove zero snaps"
    | [x] => .ok ("Remove snap " ++ goQuote x, removed, tsets)
    | xs => .ok ("Remove snaps " ++ goJoinComma (xs.map goQuote), removed, tsets)

/-- Rendering of a Go `[]string` under `%q` (for the 500 message). -/
def goQuoteList (xs : List String) : String :=
  "[" ++ goJoinComma (xs.map goQuote) ++ "]"

/-- The JSON branch of POST `/v2/snaps` (`snapsOp`) on a decoded body: the
per-snap options are rejected up front, before the state is consulted and
before any of the external task-set builders run. -/
def snapsOp (ops : SnapOps) (inst : SnapInstruction) (st : DState) :
    Response × DState :=
  if inst.channel ≠ "" || inst.revision ≠ 0 || inst.devMode || inst.jailMode then
    (BadRequest "unsupported option provided for multi-snap operation", st)
  else
    match (match inst.action with
           | "refresh" => some (snapUpdateMany ops inst)
           | "install" => some (snapInstallMany ops inst)
           | "remove" => some (snapRemoveMany ops inst)
           | _ => none) with
    | none => (BadRequest ("unsupported multi-snap operation \"" ++ inst.action ++ "\""), st)
    | some (.error e) =>
      (InternalError ("cannot " ++ inst.action ++ " " ++ goQuoteList inst.snaps ++ ": " ++ e), st)
    | some (.ok (msg, affected, tsets)) =>
      match tsets with
      | [] =>
        let (chg, st2) := st.newChange (inst.action ++ "-snap") msg [] none (some affected) (some .done)
        (AsyncResponse chg.id, st2)
      | _ =>
        let (chg0, st2) := newChangeApi st (inst.action ++ "-snap") msg tsets (some affected)
        let chg := { chg0 with apiData := some affected }
        (AsyncResponse chg.id, st2.updateChange chg)

/-! ### Daemon: login, configuration, interfaces, change abort -/

/-- The email-likeness test of POST `/v2/login`
(`regexp.MustCompile` of `.@.*\..` + `MatchString`): an unanchored search,
modelled as a full match of `.*` pattern `.*`. -/
def isEmailish (s : String) : Bool :=
  match Regex.parse ".@.*\\.." with
  | some r => rmatch (.cat (.star .anyc) (.cat r (.star .anyc))) s
  | none => false

/-- The decoded body of POST `/v2/login`. -/
structure LoginData where
  username : String := ""
  password : String := ""
  otp : String := ""
deriving Repr

/-- Results of the external `store.LoginUser`: the two 2fa errors, typed
invalid-auth data, any other error, or the `(macaroon, discharge)` pair. -/
inductive LoginErr where
  | needs2fa (msg : String)
  | twoFaFailed (msg : String)
  | invalidAuth (msg : String)
  | other (msg : String)
deriving Repr

/-- The user records persisted by `auth.NewUser`:
`(username, macaroon, discharges)`. -/
structure AuthState where
  users : List (String × String × List String) := []
deriving Repr

/-- The POST `/v2/login` handler (`loginUser`) on a decoded body: a username
that does not look like an email address is answered with a 400
`invalid-auth-data` error before the store is consulted; otherwise the store
result is translated and a successful login persists a user record. -/
def loginUser (storeLogin : String → String → String → Except LoginErr (String × String))
    (body : LoginData) (st : AuthState) : Response × AuthState :=
  if !isEmailish body.username then
    (.error 400 "invalid-auth-data" "please use a valid email address.", st)
  else
    match storeLogin body.username body.password body.otp with
    | .error (.needs2fa msg) => (.error 401 "two-factor-required" msg, st)
    | .error (.twoFaFailed msg) => (.error 401 "two-factor-failed" msg, st)
    | .error (.invalidAuth msg) => (.error 400 "invalid-auth-data" msg, st)
    | .error (.other msg) => (Unauthorized msg, st)
    | .ok (macaroon, discharge) =>
      (.sync 200 (.loginData macaroon [discharge]),
       { users := st.users ++ [(body.username, macaroon, [discharge])] })

/-- Go `strings.Split` on a single-character separator: separators split the
character list, and the empty input yields one empty field — never zero. -/
def goSplitChar (sep : Char) : List Char → List (List Char)
  | [] => [[]]
  | c :: cs =>
    if c = sep then [] :: goSplitChar sep cs
    else
      match goSplitChar sep cs with
      | [] => [[c]]
      | h :: t => (c :: h) :: t

/-- The `strings.Split(keysParam, ",")` of `getSnapConf`. -/
def goSplitComma (s : String) : List String :=
  (goSplitChar ',' s.toList).map (fun l => String.mk l)

/-- The per-key lookup loop of `getSnapConf`, collecting the configuration
values; the first failing key aborts with its error. -/
def confLoop (txGet : String → String → Except String Attr) (snapName : String) :
    List String → Except String (List (String × Attr))
  | [] => .ok []
  | k :: rest =>
    match txGet snapName k with
    | .error e => .error e
    | .ok v =>
      match confLoop txGet snapName rest with
      | .error e => .error e
      | .ok kvs => .ok ((k, v) :: kvs)

/-- The GET `/v2/snaps/\x7bname\x7d/conf` handler (`getSnapConf`): splits the
`keys` query parameter on commas, answers 400 "no keys supplied" for an
empty split (a branch the split function cannot produce), then looks every
key up in a configuration transaction (`txGet` stands for
`configstate.Transaction.Get`). -/
def getSnapConf (txGet : String → String → Except String Attr)
    (snapName keysParam : String) : Response :=
  let keys := goSplitComma keysParam
  if keys.length = 0 then
    BadRequest "cannot obtain configuration: no keys supplied"
  else
    match confLoop txGet snapName keys with
    | .error e => BadRequest e
    | .ok kvs => .sync 200 (.confValues kvs)

/-- A plug reference from the decoded interface action (`plugJSON`). -/
structure PlugJSON where
  snap : String := ""
  plug : String := ""
deriving Repr

/-- A slot reference from the decoded interface action (`slotJSON`). -/
structure SlotJSON where
  snap : String := ""
  slot : String := ""
deriving Repr

/-- The decoded body of POST `/v2/interfaces` (`interfaceAction`). -/
structure InterfaceAction where
  action : String := ""
  plugs : List PlugJSON := []
  slots : List SlotJSON := []
deriving Repr

/-- The POST `/v2/interfaces` handler (`changeInterfaces`) on a decoded
body.  `enableInternal` stands for `d.enableInternalInterfaceActions`;
`connectOp`/`disconnectOp` stand for `ifacestate.Connect`/`Disconnect`.
The guard order follows the source: empty action, internal actions
disabled, many-to-many, unsupported action, at least one plug and slot. -/
def changeInterfaces (enableInternal : Bool)
    (connectOp disconnectOp : String → String → String → String → Except String TaskSet)
    (a : InterfaceAction) (st : DState) : Response × DState :=
  if a.action = "" then (BadRequest "interface action not specified", st)
  else if !enableInternal && a.action ≠ "connect" && a.action ≠ "disconnect" then
    (BadRequest "internal interface actions are disabled", st)
  else if a.plugs.length > 1 || a.slots.length > 1 then
    (NotImplemented "many-to-many operations are not implemented", st)
  else if a.action ≠ "connect" && a.action ≠ "disconnect" then
    (BadRequest ("unsupported interface action: \"" ++ a.action ++ "\""), st)
  else if a.plugs.length = 0 || a.slots.length = 0 then
    (BadRequest "at least one plug and slot is required", st)
  else
    let p := a.plugs.headD {}
    let s := a.slots.headD {}
    let summary :=
      if a.action = "connect" then
        "Connect " ++ p.snap ++ ":" ++ p.plug ++ " to " ++ s.snap ++ ":" ++ s.slot
      else
        "Disconnect " ++ p.snap ++ ":" ++ p.plug ++ " from " ++ s.snap ++ ":" ++ s.slot
    match (if a.action = "connect" then connectOp p.snap p.plug s.snap s.slot
           else disconnectOp p.snap p.plug s.snap s.slot) with
    | .error e => (BadRequest e, st)
    | .ok ts =>
      let (chg, st2) :=
        st.newChange (a.action ++ "-snap") summary ts (some [p.snap, s.snap]) none none
      (AsyncResponse chg.id, st2)

/-- The POST `/v2/changes/\x7bid\x7d` handler (`abortChange`): looks the Change
up, decodes the body, refuses any action but `abort`, refuses a Ready
Change ("nothing pending"), and otherwise aborts the Change. -/
def abortChange (st : DState) (chID : String) (body : Except String String) :
    Response × DState :=
  match st.findChange chID with
  | none => (NotFound ("cannot find change with id \"" ++ chID ++ "\""), st)
  | some chg =>
    match body with
    | .error e => (BadRequest ("cannot decode data from request body: " ++ e), st)
    | .ok action =>
      if action ≠ "abort" then
        (BadRequest ("change action \"" ++ action ++ "\" is unsupported"), st)
      else if chg.statusReady then
        (BadRequest ("cannot abort change " ++ chID ++ " with nothing pending"), st)
      else
        let chg2 := chg.abortChg
        (.sync 200 (.chgInfo chg2), st.updateChange chg2)

/-! ### Concrete inputs used by witnesses and counterexamples -/

/-- The constraint tree of the worked example:
`\x7b"bus":"usb","speed":["high","full"]\x7d`. -/
def c1constraints : Attr :=
  .map [("bus", .str "usb"), ("speed", .list [.str "high", .str "full"])]

/-- The matching input map `\x7b"bus":"usb","speed":"full"\x7d`. -/
def c1inputOk : List (String × Attr) := [("bus", .str "usb"), ("speed", .str "full")]

/-- The failing input map `\x7b"bus":"pci","speed":"full"\x7d`. -/
def c1inputBad : List (String × Attr) := [("bus", .str "pci"), ("speed", .str "full")]

/-- Snap operations whose external collaborators all fail; the guard
theorems are independent of them, so any instantiation works for the
closed statements. -/
def opsUnused : SnapOps :=
  { install := fun _ _ _ _ => .error "unused"
    refreshDecls := fun _ => .error "unused"
    update := fun _ _ _ _ => .error "unused"
    remove := fun _ _ => .error "unused"
    revert := fun _ _ => .error "unused"
    revertToRevision := fun _ _ _ => .error "unused"
    enable := fun _ => .error "unused"
    disable := fun _ => .error "unused"
    installMany := fun _ => .error "unused"
    updateMany := fun _ => .error "unused"
    removeMany := fun _ => .error "unused" }

/-- An install instruction requesting both devmode and jailmode. -/
def instDevJail : SnapInstruction :=
  { action := "install", devMode := true, jailMode := true }

/-- A public-key decoder for the assembly witnesses: the fingerprint of an
encoded key `k` is `"fp-" ++ k`. -/
def decodeW (k : String) : Except String PublicKey := .ok { keyID := "fp-" ++ k }

/-- A timestamp parser for the assembly witnesses. -/
def tsW (_ : List (String × Attr)) : Except String Int := .ok 0

/-- A serial assertion whose `device-key-sha3-384` header disagrees with the
decoded key's fingerprint. -/
def serialW : AssertionBase :=
  { headers := [("authority-id", .str "brand"), ("brand-id", .str "brand"),
                ("device-key", .str "KEY"), ("device-key-sha3-384", .str "other"),
                ("timestamp", .str "t")]
    signKeyID := "sk" }

/-- A serial-request assertion whose decoded device key's fingerprint
disagrees with the signing key id. -/
def serialReqW : AssertionBase :=
  { headers := [("brand-id", .str "brand"), ("model", .str "m"),
                ("request-id", .str "r"), ("device-key", .str "KEY")]
    signKeyID := "sk" }

/-- A Ready change (every task terminal). -/
def chgReadyW : StChange :=
  { id := "1", kind := "install-snap", summary := "s", tasks := [.done, .hold] }

/-- A non-Ready change (one task still Do). -/
def chgPendingW : StChange :=
  { id := "2", kind := "install-snap", summary := "s", tasks := [.done, .doSt] }

/-- A daemon state holding the two changes above. -/
def dstateW : DState := { changes := [chgReadyW, chgPendingW], lastID := 2 }

/-- An interface action with an unsupported action name and two plugs. -/
def ifaceActW : InterfaceAction :=
  { action := "add"
    plugs := [{ snap := "a", plug := "p" }, { snap := "b", plug := "q" }]
    slots := [] }

/-- An interface collaborator that is never reached by the guard claims. -/
def ifaceOpUnused (_ _ _ _ : String) : Except String TaskSet := .error "unused"

/-- A multi-snap instruction carrying a per-snap option (a channel). -/
def instMultiChannel : SnapInstruction :=
  { action := "install", channel := "stable", snaps := ["a", "b"] }

/-- A store login collaborator that is never reached by the guard claims. -/
def storeLoginUnused (_ _ _ : String) : Except LoginErr (String × String) :=
  .error (.other "unused")

/-- A configuration lookup collaborator answering every key with `42`. -/
def txGet42 (_ _ : String) : Except String Attr := .ok (.intv 42)

/-! ### Claims -/

/-- C1: with the compiled constraints `\x7b"bus":"usb","speed":["high","full"]\x7d`,
`Check` succeeds on `\x7b"bus":"usb","speed":"full"\x7d` and fails on
`\x7b"bus":"pci","speed":"full"\x7d` with a diagnostic naming the dotted path
`"bus"`. -/
theorem claim_C1_check_example :
    ∃ ac, compileAttributeConstraints c1constraints = .ok ac ∧
      ac.Check c1inputOk = .ok () ∧
      ∃ e, ac.Check c1inputBad = .error e ∧ strContains e "\"bus\"" = true :=
  ⟨_, rfl, rfl, "attribute \"bus\" value \"pci\" does not match ^usb$", rfl, rfl⟩

/-- Helper for C2: compiling an alternatives list fails as soon as one
branch fails in every branch context. -/
theorem compileAlt_err_of_mem (cc : compileContext) (c : Attr)
    (hc : ∀ j, isErrE (compileAttrMatcher (cc.altI j) c) = true) :
    ∀ (l : List Attr) (i : Nat), c ∈ l →
      isErrE (compileAltAttrMatcher cc i l) = true := by
  intro l
  induction l with
  | nil => intro i h; cases h
  | cons x rest ih =>
    intro i h
    rcases List.mem_cons.mp h with hx | hr
    · subst hx
      have hce := hc i
      simp only [compileAltAttrMatcher]
      cases hcomp : compileAttrMatcher (cc.altI i) c with
      | error e => simp [isErrE]
      | ok m => rw [hcomp] at hce; simp [isErrE] at hce
    · simp only [compileAltAttrMatcher]
      cases hcomp : compileAttrMatcher (cc.altI i) x with
      | error e => simp [isErrE]
      | ok m =>
        have := ih (i + 1) hr
        cases halt : compileAltAttrMatcher cc (i + 1) rest with
        | error e => simp [isErrE]
        | ok ms => rw [halt] at this; simp [isErrE] at this

/-- C2: compiling attribute constraints fails whenever an alternatives list
appears directly inside another alternatives list, and whenever the first
non-alternative level is a bare regexp string (at the top level or inside
top-level alternatives); a top-level alternatives list itself is accepted
(witnessed by a compiling instance). -/
theorem claim_C2_compile_rejections :
    (∀ (cc : compileContext) (l : List Attr),
        (∃ c ∈ l, ∃ l2, c = Attr.list l2) →
        isErrE (compileAttrMatcher cc (.list l)) = true) ∧
    (∀ s : String, isErrE (compileAttributeConstraints (.str s)) = true) ∧
    (∀ (l : List Attr) (s : String), Attr.str s ∈ l →
        isErrE (compileAttributeConstraints (.list l)) = true) ∧
    isOkE (compileAttributeConstraints (.list [.map [("a", .str "x")]])) = true := by
  refine ⟨?_, ?_, ?_, rfl⟩
  · intro cc l hmem
    rcases hmem with ⟨c, hcl, l2, rfl⟩
    by_cases hwa : cc.wasAlt
    · simp [compileAttrMatcher, hwa, isErrE]
    · have herr : ∀ j, isErrE (compileAttrMatcher (cc.altI j) (Attr.list l2)) = true := by
        intro j
        simp [compileAttrMatcher, compileContext.altI, isErrE]
      have halt := compileAlt_err_of_mem cc (Attr.list l2) herr l 0 hcl
      simp only [compileAttrMatcher, hwa, if_false]
      cases hres : compileAltAttrMatcher cc 0 l with
      | error e => simp [isErrE]
      | ok ms => rw [hres] at halt; simp [isErrE] at halt
  · intro s
    simp [compileAttributeConstraints, compileAttrMatcher, isErrE]
  · intro l s hmem
    have herr : ∀ j,
        isErrE (compileAttrMatcher
          (compileContext.altI { dotted := "", hadMap := false, wasAlt := false } j)
          (Attr.str s)) = true := by
      intro j
      simp [compileAttrMatcher, compileContext.altI, isErrE]
    have halt := compileAlt_err_of_mem _ (Attr.str s) herr l 0 hmem
    simp only [compileAttributeConstraints, compileAttrMatcher]
    cases hres : compileAltAttrMatcher { dotted := "", hadMap := false, wasAlt := false } 0 l with
    | error e => simp [isErrE]
    | ok ms => rw [hres] at halt; simp [isErrE] at halt

/-- Witness for C2 at concrete inputs: directly nested alternatives are
rejected, a bare top-level regexp string is rejected (alone and inside
alternatives), and a top-level alternatives list compiles. -/
theorem claim_C2_witness :
    isErrE (compileAttrMatcher { dotted := "", hadMap := false, wasAlt := false }
      (.list [.list [.str "x"]])) = true ∧
    isErrE (compileAttributeConstraints (.str "usb")) = true ∧
    isErrE (compileAttributeConstraints (.list [.str "usb"])) = true ∧
    isOkE (compileAttributeConstraints (.list [.map [("a", .str "x")]])) = true :=
  ⟨claim_C2_compile_rejections.1 _ _ ⟨.list [.str "x"], by simp, [.str "x"], rfl⟩,
   claim_C2_compile_rejections.2.1 "usb",
   claim_C2_compile_rejections.2.2.1 [.str "usb"] "usb" (by simp),
   claim_C2_compile_rejections.2.2.2⟩

mutual

/-- Helper for C3: a regexp leaf matcher succeeds exactly when the spec-side
acceptance predicate holds. -/
theorem listLift_rx_ok (pat : String) (rs : List Regex) (ctx : String) (v : Attr) :
    isOkE (listLift (rxScalar pat rs) ctx v) = specRegexpAccepts rs v := by
  cases v with
  | str x =>
    simp only [listLift, rxScalar, rxVerdict, specRegexpAccepts]
    by_cases h : goAnchoredMatch rs x <;> simp [h, isOkE]
  | boolv b =>
    simp only [listLift, rxScalar, rxVerdict, specRegexpAccepts]
    by_cases h : goAnchoredMatch rs (if b then "true" else "false") <;> simp [h, isOkE]
  | intv n =>
    simp only [listLift, rxScalar, rxVerdict, specRegexpAccepts]
    by_cases h : goAnchoredMatch rs (toString n) <;> simp [h, isOkE]
  | list l =>
    simp only [listLift, specRegexpAccepts]
    exact listLiftL_rx_ok pat rs ctx 0 l
  | map kvs => simp [listLift, rxScalar, specRegexpAccepts, isOkE]

/-- Helper for C3, list form: every element must be accepted. -/
theorem listLiftL_rx_ok (pat : String) (rs : List Regex) (ctx : String) (i : Nat)
    (l : List Attr) :
    isOkE (listLiftL (rxScalar pat rs) ctx i l) = specRegexpAcceptsL rs l := by
  cases l with
  | nil => simp [listLiftL, specRegexpAcceptsL, isOkE]
  | cons v rest =>
    have hhead := listLift_rx_ok pat rs (chain ctx (toString i)) v
    have htail := listLiftL_rx_ok pat rs ctx (i + 1) rest
    simp only [listLiftL, specRegexpAcceptsL]
    cases hv : listLift (rxScalar pat rs) (chain ctx (toString i)) v with
    | error e =>
      rw [hv] at hhead
      simp [isOkE] at hhead
      simp [isOkE, ← hhead]
    | ok u =>
      rw [hv] at hhead
      simp [isOkE] at hhead
      simp [← hhead, htail]

end

/-- C3: a successfully compiled regexp-leaf constraint `s` produces the
matcher for `s`'s top-level alternation branches, and that matcher accepts
a value exactly when the compiled anchored pattern `^s$` matches the
value's string rendering — strings verbatim, booleans as `true`/`false`,
integers in decimal, lists element-wise — while map values are never
accepted (they are errors).  Under Go's lowest-precedence `|` the anchors
of `^s$` bind only the first and last branch of `s`, which is what
`specRegexpAccepts`/`goAnchoredMatch` express. -/
theorem claim_C3_regexp_leaf (cc : compileContext) (s : String) (rs : List Regex)
    (m : attrMatcher) (hp : Regex.parseBranches s = some rs)
    (hc : compileRegexpAttrMatcher cc s = .ok m) (ctx : String) (v : Attr) :
    m = .regexp s rs ∧ isOkE (amatch m ctx v) = specRegexpAccepts rs v := by
  have hm : m = attrMatcher.regexp s rs := by
    simp [compileRegexpAttrMatcher, hp] at hc
    exact hc.symm
  subst hm
  refine ⟨rfl, ?_⟩
  simp only [amatch]
  exact listLift_rx_ok s rs ctx v

/-- Witness for C3: the pattern `high|full` compiles to its two top-level
branches, the matcher's verdict on the string `highway` coincides with the
spec-side acceptance, and both accept it — the compiled `^high|full$`
prefix-matches `^high` as Go's precedence dictates. -/
theorem claim_C3_witness :
    attrMatcher.regexp "high|full"
        [.cat (.chr 'h') (.cat (.chr 'i') (.cat (.chr 'g') (.cat (.chr 'h') .eps))),
         .cat (.chr 'f') (.cat (.chr 'u') (.cat (.chr 'l') (.cat (.chr 'l') .eps)))]
      = .regexp "high|full"
        [.cat (.chr 'h') (.cat (.chr 'i') (.cat (.chr 'g') (.cat (.chr 'h') .eps))),
         .cat (.chr 'f') (.cat (.chr 'u') (.cat (.chr 'l') (.cat (.chr 'l') .eps)))] ∧
    isOkE (amatch
        (.regexp "high|full"
          [.cat (.chr 'h') (.cat (.chr 'i') (.cat (.chr 'g') (.cat (.chr 'h') .eps))),
           .cat (.chr 'f') (.cat (.chr 'u') (.cat (.chr 'l') (.cat (.chr 'l') .eps)))])
        "speed" (.str "highway"))
      = specRegexpAccepts
          [.cat (.chr 'h') (.cat (.chr 'i') (.cat (.chr 'g') (.cat (.chr 'h') .eps))),
           .cat (.chr 'f') (.cat (.chr 'u') (.cat (.chr 'l') (.cat (.chr 'l') .eps)))]
          (.str "highway") ∧
    isOkE (amatch
        (.regexp "high|full"
          [.cat (.chr 'h') (.cat (.chr 'i') (.cat (.chr 'g') (.cat (.chr 'h') .eps))),
           .cat (.chr 'f') (.cat (.chr 'u') (.cat (.chr 'l') (.cat (.chr 'l') .eps)))])
        "speed" (.str "highway")) = true := by
  have h := claim_C3_regexp_leaf { dotted := "speed", hadMap := true, wasAlt := false }
    "high|full" _ _ rfl rfl "speed" (.str "highway")
  exact ⟨h.1, h.2, rfl⟩

/-- Helper: an occurrence in a list survives prepending. -/
theorem occursIn_append_right (p y : List Char) (h : occursIn p y = true) :
    ∀ x : List Char, occursIn p (x ++ y) = true := by
  intro x
  induction x with
  | nil => simpa using h
  | cons c cs ih => simp [occursIn, ih]

/-- Helper: a substring of `b` is a substring of `a ++ b`. -/
theorem strContains_append_right (a b p : String) (h : strContains b p = true) :
    strContains (a ++ b) p = true := by
  unfold strContains at *
  have hdata : (a ++ b).toList = a.toList ++ b.toList := String.data_append a b
  rw [hdata]
  exact occursIn_append_right _ _ h a.toList

/-- C4 (as amended): for the single-snap actions that consult mode flags
(install, refresh, revert), a body with both devmode and jailmode on a
platform without force-devmode is answered 400 with a message containing
"devmode and jailmode" and no change is created, and on a force-devmode
platform any jailmode request is refused 400 — in both cases before any
external task-set builder runs (the result holds for every `ops`). -/
theorem claim_C4_devmode_jailmode (ops : SnapOps) (name : String)
    (inst : SnapInstruction) (st : DState)
    (ha : inst.action = "install" ∨ inst.action = "refresh" ∨ inst.action = "revert") :
    (inst.devMode = true → inst.jailMode = true →
      postSnap false ops name inst st =
        (BadRequest ("cannot " ++ inst.action ++ " \"" ++ name ++ "\": "
          ++ "cannot use devmode and jailmode flags together"), st) ∧
      strContains ("cannot " ++ inst.action ++ " \"" ++ name ++ "\": "
          ++ "cannot use devmode and jailmode flags together")
        "devmode and jailmode" = true) ∧
    (inst.jailMode = true →
      postSnap true ops name inst st =
        (BadRequest ("cannot " ++ inst.action ++ " \"" ++ name ++ "\": "
          ++ "this system cannot honour the jailmode flag"), st)) := by
  obtain ⟨act, ch, rev, dm, jm, sn⟩ := inst
  constructor
  · intro hdm hjm
    simp only at hdm hjm
    subst hdm; subst hjm
    constructor
    · rcases ha with h | h | h <;> simp only at h <;> subst h <;>
        simp [postSnap, snapInstructionDispTable, snapInstall, snapUpdate,
          snapRevert, modeFlags]
    · exact strContains_append_right _ _ _ (by decide)
  · intro hjm
    simp only at hjm
    subst hjm
    rcases ha with h | h | h <;> simp only at h <;> subst h <;>
      simp [postSnap, snapInstructionDispTable, snapInstall, snapUpdate,
        snapRevert, modeFlags]

/-- Counterexample to C4 as stated: on a force-devmode platform an install
request with both devmode and jailmode is refused with the jailmode
message, which does not contain "devmode and jailmode". -/
theorem claim_C4_counterexample :
    postSnap true opsUnused "foo" instDevJail { changes := [], lastID := 0 } =
      (BadRequest "cannot install \"foo\": this system cannot honour the jailmode flag",
       { changes := [], lastID := 0 }) ∧
    strContains "cannot install \"foo\": this system cannot honour the jailmode flag"
      "devmode and jailmode" = false :=
  ⟨rfl, by decide⟩

/-- Witness for C4 (amended) at a concrete request. -/
theorem claim_C4_witness :
    (postSnap false opsUnused "foo" instDevJail { changes := [], lastID := 0 } =
       (BadRequest "cannot install \"foo\": cannot use devmode and jailmode flags together",
        { changes := [], lastID := 0 }) ∧
     strContains "cannot install \"foo\": cannot use devmode and jailmode flags together"
       "devmode and jailmode" = true) ∧
    postSnap true opsUnused "foo" instDevJail { changes := [], lastID := 0 } =
      (BadRequest "cannot install \"foo\": this system cannot honour the jailmode flag",
       { changes := [], lastID := 0 }) := by
  have h := claim_C4_devmode_jailmode opsUnused "foo" instDevJail
    { changes := [], lastID := 0 } (Or.inl rfl)
  exact ⟨h.1 rfl rfl, h.2 rfl⟩

/-- C5: a multi-snap JSON operation whose decoded instruction carries a
non-empty channel, a set revision, devmode or jailmode is rejected with the
400 "unsupported option provided for multi-snap operation" error, leaving
the state untouched and independently of every external task-set builder
(so before any task-set is built). -/
theorem claim_C5_multi_snap_options (ops : SnapOps) (inst : SnapInstruction)
    (st : DState)
    (h : inst.channel ≠ "" ∨ inst.revision ≠ 0 ∨ inst.devMode = true ∨ inst.jailMode = true) :
    snapsOp ops inst st =
      (BadRequest "unsupported option provided for multi-snap operation", st) := by
  obtain ⟨act, ch, rev, dm, jm, sn⟩ := inst
  simp only at h
  rcases h with h | h | h | h <;> simp [snapsOp, h]

/-- Witness for C5: an install of two snaps with an explicit channel. -/
theorem claim_C5_witness :
    snapsOp opsUnused instMultiChannel { changes := [], lastID := 0 } =
      (BadRequest "unsupported option provided for multi-snap operation",
       { changes := [], lastID := 0 }) :=
  claim_C5_multi_snap_options opsUnused instMultiChannel
    { changes := [], lastID := 0 } (Or.inl (by decide))

/-- C6: a login whose username fails the email-likeness regexp is answered
400 with kind `invalid-auth-data`, without consulting the store (the result
holds for every `storeLogin`) and without touching the user records. -/
theorem claim_C6_login_email
    (storeLogin : String → String → String → Except LoginErr (String × String))
    (body : LoginData) (st : AuthState)
    (h : isEmailish body.username = false) :
    loginUser storeLogin body st =
      (.error 400 "invalid-auth-data" "please use a valid email address.", st) := by
  simp [loginUser, h]

/-- Witness for C6: the username `noat.example` (no `@`) is refused. -/
theorem claim_C6_witness :
    loginUser storeLoginUnused { username := "noat.example", password := "x" }
      { users := [] } =
      (.error 400 "invalid-auth-data" "please use a valid email address.",
       { users := [] }) :=
  claim_C6_login_email storeLoginUnused _ _ (by decide)

/-- C7: serial assembly fails with the key-agreement error whenever the
`device-key-sha3-384` header differs from the decoded device key's
self-computed fingerprint, and serial-request assembly fails whenever the
decoded device key's fingerprint differs from the signing key id; failing,
both produce an error and no assertion value. -/
theorem claim_C7_key_agreement :
    (∀ (dec : String → Except String PublicKey)
        (ts : List (String × Attr) → Except String Int)
        (assert : AssertionBase) (ek kid : String) (pk : PublicKey),
        checkAuthorityMatchesBrand "serial" assert = .ok () →
        checkNotEmptyString assert.headers "device-key" = .ok ek →
        dec ek = .ok pk →
        checkNotEmptyString assert.headers "device-key-sha3-384" = .ok kid →
        kid ≠ pk.keyID →
        assembleSerial dec ts assert = .error "device key does not match provided key id") ∧
    (∀ (dec : String → Except String PublicKey)
        (assert : AssertionBase) (b m rq sr ek : String) (pk : PublicKey),
        checkNotEmptyString assert.headers "brand-id" = .ok b →
        checkNotEmptyString assert.headers "model" = .ok m →
        checkNotEmptyString assert.headers "request-id" = .ok rq →
        checkOptionalString assert.headers "serial" = .ok sr →
        checkNotEmptyString assert.headers "device-key" = .ok ek →
        dec ek = .ok pk →
        pk.keyID ≠ assert.signKeyID →
        assembleSerialRequest dec assert =
          .error "device key does not match included signing key id") := by
  constructor
  · intro dec ts assert ek kid pk h1 h2 h3 h4 h5
    simp [assembleSerial, h1, h2, h3, h4, h5]
  · intro dec assert b m rq sr ek pk h1 h2 h3 h4 h5 h6 h7
    simp [assembleSerialRequest, h1, h2, h3, h4, h5, h6, h7]

/-- Witness for C7: a serial assertion whose `device-key-sha3-384` header is
`other` while the decoded fingerprint is `fp-KEY`, and a serial-request
whose fingerprint `fp-KEY` differs from the signing key id `sk`. -/
theorem claim_C7_witness :
    assembleSerial decodeW tsW serialW =
      .error "device key does not match provided key id" ∧
    assembleSerialRequest decodeW serialReqW =
      .error "device key does not match included signing key id" :=
  ⟨claim_C7_key_agreement.1 decodeW tsW serialW "KEY" "other" { keyID := "fp-KEY" }
     rfl rfl rfl rfl (by decide),
   claim_C7_key_agreement.2 decodeW serialReqW "brand" "m" "r" "" "KEY"
     { keyID := "fp-KEY" } rfl rfl rfl rfl rfl rfl (by decide)⟩

/-- C8: POSTing `abort` for a Ready Change (every task terminal) is refused
with the 400 "nothing pending" error and the state — hence the Change — is
untouched; on a non-Ready Change the same request aborts the Change (the
abort marking happens only in that branch). -/
theorem claim_C8_abort_ready (st : DState) (cid : String) (chg : StChange)
    (h : st.findChange cid = some chg) :
    (chg.statusReady = true →
      abortChange st cid (.ok "abort") =
        (BadRequest ("cannot abort change " ++ cid ++ " with nothing pending"), st)) ∧
    (chg.statusReady = false →
      abortChange st cid (.ok "abort") =
        (.sync 200 (.chgInfo chg.abortChg), st.updateChange chg.abortChg)) := by
  constructor
  · intro hr
    simp [abortChange, h, hr]
  · intro hr
    simp [abortChange, h, hr]

/-- Witness for C8: in a state with a Ready change `1` and a pending change
`2`, aborting `1` is refused and aborting `2` goes through. -/
theorem claim_C8_witness :
    abortChange dstateW "1" (.ok "abort") =
      (BadRequest "cannot abort change 1 with nothing pending", dstateW) ∧
    abortChange dstateW "2" (.ok "abort") =
      (.sync 200 (.chgInfo chgPendingW.abortChg),
       dstateW.updateChange chgPendingW.abortChg) :=
  ⟨(claim_C8_abort_ready dstateW "1" chgReadyW rfl).1 rfl,
   (claim_C8_abort_ready dstateW "2" chgPendingW rfl).2 rfl⟩

/-- Helper for C9: Go's `strings.Split` on a separator character never
yields an empty slice. -/
theorem goSplitChar_ne_nil (sep : Char) (cs : List Char) :
    goSplitChar sep cs ≠ [] := by
  induction cs with
  | nil => simp [goSplitChar]
  | cons c rest ih =>
    simp only [goSplitChar]
    split
    · simp
    · cases h : goSplitChar sep rest with
      | nil => simp
      | cons a b => simp

/-- C9: the "no keys supplied" 400 branch of `getSnapConf` is unreachable —
splitting the `keys` parameter on commas always yields at least one field,
the handler always proceeds to the lookup loop, and with an absent or empty
`keys` parameter it looks up the empty-string key. -/
theorem claim_C9_conf_no_keys_unreachable :
    (∀ s : String, (goSplitComma s).length ≠ 0) ∧
    (∀ (txGet : String → String → Except String Attr) (snapName keysParam : String),
      getSnapConf txGet snapName keysParam =
        match confLoop txGet snapName (goSplitComma keysParam) with
        | .error e => BadRequest e
        | .ok kvs => .sync 200 (.confValues kvs)) ∧
    (∀ (txGet : String → String → Except String Attr) (snapName : String),
      getSnapConf txGet snapName "" =
        match txGet snapName "" with
        | .error e => BadRequest e
        | .ok v => .sync 200 (.confValues [("", v)])) := by
  have hlen : ∀ s : String, (goSplitComma s).length ≠ 0 := by
    intro s
    simp only [goSplitComma, List.length_map, ne_eq, List.length_eq_zero]
    exact goSplitChar_ne_nil ',' s.toList
  refine ⟨hlen, ?_, ?_⟩
  · intro txGet snapName keysParam
    simp only [getSnapConf, if_neg (hlen keysParam)]
  · intro txGet snapName
    have h0 : goSplitComma "" = [""] := rfl
    simp only [getSnapConf, if_neg (hlen ""), h0, confLoop]
    cases h : txGet snapName "" with
    | error e => simp
    | ok v => simp

/-- C10 (as amended): a decoded interface action with a non-empty action
name and more than one plug or more than one slot is answered with the 501
many-to-many error — provided the action is connect/disconnect or internal
interface actions are enabled — before the unsupported-action and
at-least-one-plug-and-slot checks and before the ifacestate collaborators
run. -/
theorem claim_C10_many_to_many (enable : Bool)
    (connectOp disconnectOp : String → String → String → String → Except String TaskSet)
    (a : InterfaceAction) (st : DState)
    (hne : a.action ≠ "")
    (hok : a.action = "connect" ∨ a.action = "disconnect" ∨ enable = true)
    (hmany : a.plugs.length > 1 ∨ a.slots.length > 1) :
    changeInterfaces enable connectOp disconnectOp a st =
      (NotImplemented "many-to-many operations are not implemented", st) := by
  obtain ⟨act, plugs, slots⟩ := a
  simp only at hne hok hmany
  rcases hmany with hm | hm <;>
    rcases hok with h | h | h <;>
      simp [changeInterfaces, hne, h, hm]

/-- Counterexample to C10 as stated: with internal interface actions
disabled, the action `add` with two plugs is answered by the 400 "internal
interface actions are disabled" error, not by a 501. -/
theorem claim_C10_counterexample :
    changeInterfaces false ifaceOpUnused ifaceOpUnused ifaceActW
        { changes := [], lastID := 0 } =
      (BadRequest "internal interface actions are disabled",
       { changes := [], lastID := 0 }) ∧
    ¬ ((changeInterfaces false ifaceOpUnused ifaceOpUnused ifaceActW
        { changes := [], lastID := 0 }).1.statusCode = 501) :=
  ⟨rfl, by decide⟩

/-- Witness for C10 (amended): with internal interface actions enabled, the
same two-plug `add` request is answered 501. -/
theorem claim_C10_witness :
    changeInterfaces true ifaceOpUnused ifaceOpUnused ifaceActW
        { changes := [], lastID := 0 } =
      (NotImplemented "many-to-many operations are not implemented",
       { changes := [], lastID := 0 }) :=
  claim_C10_many_to_many true ifaceOpUnused ifaceOpUnused ifaceActW
    { changes := [], lastID := 0 } (by decide) (Or.inr (Or.inr rfl))
    (Or.inl (by decide))
